import Mathlib

/-!
Verification of the single-hop CORS forwarding proxy in `proxy-server.js`.

The request handler passed to `http.createServer` is embedded as a pure
function `Proxy.handle` from an inbound request to an `Outcome`: either an
immediately written response (preflight / missing target / invalid target) or
a `forward` carrying the outbound request options and the body that is piped
upstream.  The response relay installed in the `protocol.request` callback and
the `proxyReq.on error` handler are embedded separately (`relayResponse`,
`upstreamErrorResponse`), since they run only after an upstream connection was
attempted.

Header mappings are association lists of string pairs; `objSet`, `objGet` and
`objDelete` mirror JavaScript plain-object property assignment, lookup and
`delete` (keys compared case-sensitively, exactly as JS objects do; Node
itself lower-cases incoming header names before the handler runs, which
appears as an explicit hypothesis where it matters).

Platform primitives used by the source are modelled as follows:
* `new URL(s)` (WHATWG URL parser) is `parseURL`, a faithful subset of the
  WHATWG algorithm for the attributes the source reads (`protocol`,
  `hostname`, `port`, `pathname`, `search`): scheme parsing, special-scheme
  slash skipping, userinfo stripping, host lower-casing, default-port
  elision, port range checking, backslash-to-slash conversion in special
  paths, empty-query elision, fragment stripping.  Not modelled (no claim
  depends on them): IPv6 host brackets (rejected), IDNA/punycode,
  percent-encoding normalisation and dot-segment path normalisation
  (left verbatim).
* `url.parse(req.url, true).query.url` is `queryParam req.url "url"`:
  the query string is the part of the request target after the first `?`
  and before the first `#`, split on `&` then on the first `=`.
  Percent-decoding is elided (identity on the inputs considered), and a
  repeated `url` key yields the first value where Node would build an array.
-/

namespace Proxy

/-- Header / query mappings: ordered association lists of string pairs. -/
abbrev Headers := List (String × String)

/-- JS plain-object property assignment `obj[k] = v`: replaces the value of
the first entry with key `k`, or appends a new entry. -/
def objSet (hs : Headers) (k v : String) : Headers :=
  match hs with
  | [] => [(k, v)]
  | (k', v') :: rest => if k' = k then (k, v) :: rest else (k', v') :: objSet rest k v

/-- JS plain-object property lookup `obj[k]`. -/
def objGet (hs : Headers) (k : String) : Option String :=
  match hs with
  | [] => none
  | (k', v) :: rest => if k' = k then some v else objGet rest k

/-- JS `delete obj[k]` (on well-formed objects keys are unique, so removing
every entry with key `k` coincides with removing the one property). -/
def objDelete (hs : Headers) (k : String) : Headers :=
  match hs with
  | [] => []
  | (k', v) :: rest => if k' = k then objDelete rest k else (k', v) :: objDelete rest k

/-- An inbound HTTP request as the handler sees it: `req.method`, `req.url`
(the request target, path plus query), `req.headers`, and the request body
stream collapsed to the byte string it carries. -/
structure InboundRequest where
  method : String
  url : String
  headers : Headers
  body : String
deriving Repr, DecidableEq

/-- The result of `new URL(targetUrl)`, restricted to the attributes the
source reads.  `protocol` keeps the trailing colon and `port` is a string
(empty when absent or equal to the scheme default), as in the WHATWG API. -/
structure URLRecord where
  protocol : String
  hostname : String
  port : String
  pathname : String
  search : String
deriving Repr, DecidableEq

/-- The `options` object passed to `http.request` / `https.request`. -/
structure RequestOptions where
  hostname : String
  port : Nat
  path : String
  method : String
  headers : Headers
deriving Repr, DecidableEq

/-- A response written to the caller: status, headers and body. -/
structure Response where
  status : Nat
  headers : Headers
  body : String
deriving Repr, DecidableEq

/-- The upstream response `proxyRes`: status code, headers (as received) and
the body stream collapsed to its byte string. -/
structure UpstreamResponse where
  statusCode : Nat
  headers : Headers
  body : String
deriving Repr, DecidableEq

/-- What the handler does with an inbound request before (or instead of) any
upstream I/O: one of the three locally written responses, or a forward
carrying the outbound options and the body piped upstream (`none` when the
outbound write side is closed immediately by `proxyReq.end()`). -/
inductive Outcome where
  | preflight (resp : Response)
  | missingTarget (resp : Response)
  | invalidTarget (resp : Response)
  | forward (opts : RequestOptions) (body : Option String)
deriving Repr, DecidableEq

/-- `true` exactly when the handler opens an outbound connection. -/
def Outcome.attemptsUpstream : Outcome → Bool
  | .forward _ _ => true
  | _ => false

/-- `true` exactly on the `InvalidTarget` error path. -/
def Outcome.isInvalidTarget : Outcome → Bool
  | .invalidTarget _ => true
  | _ => false

/-! ### WHATWG URL parsing (`new URL`) -/

/-- ASCII lower-casing of a string, character by character. -/
def lowerAscii (s : String) : String :=
  String.mk (s.toList.map Char.toLower)

/-- The numeric value of a decimal digit string (as JS coerces a port
string). -/
def digitsToNat (l : List Char) : Nat :=
  l.foldl (fun n c => n * 10 + (c.toNat - 48)) 0

/-- Characters allowed after the first character of a URL scheme. -/
def schemeRestChar (c : Char) : Bool :=
  c.isAlpha || c.isDigit || c = '+' || c = '-' || c = '.'

/-- Split off the scheme: an ASCII letter followed by scheme characters and a
colon.  Returns the lower-cased scheme and the remainder. -/
def splitScheme (l : List Char) : Option (String × List Char) :=
  match l with
  | [] => none
  | c :: _ =>
    if c.isAlpha then
      match l.span schemeRestChar with
      | (s, ':' :: rest) => some (String.mk (s.map Char.toLower), rest)
      | _ => none
    else none

/-- The special schemes of the WHATWG URL standard. -/
def isSpecialScheme (s : String) : Bool :=
  s = "http" || s = "https" || s = "ws" || s = "wss" || s = "ftp" || s = "file"

/-- Default port associated with a special scheme. -/
def schemeDefault (s : String) : Option Nat :=
  if s = "http" || s = "ws" then some 80
  else if s = "https" || s = "wss" then some 443
  else if s = "ftp" then some 21
  else none

/-- Characters ending the authority component. -/
def authorityEnd (special : Bool) (c : Char) : Bool :=
  c = '/' || c = '?' || c = '#' || (special && c = '\\')

/-- Strip the userinfo: everything up to and including the last `@`. -/
def afterLastAt (auth : List Char) : List Char :=
  auth.foldl (fun acc c => if c = '@' then [] else acc ++ [c]) []

/-- Parse the port digits after the host colon: empty is allowed (elided),
non-digits or values above 65535 are errors, and a special scheme's default
port is elided to the empty string, as the WHATWG parser does. -/
def parsePort (scheme : String) (pcs : List Char) : Except String String :=
  if pcs = [] then .ok ""
  else if pcs.all Char.isDigit then
    let n := digitsToNat pcs
    if n > 65535 then .error "Invalid URL"
    else if schemeDefault scheme = some n then .ok ""
    else .ok (Nat.repr n)
  else .error "Invalid URL"

/-- Parse authority, path and query once the scheme (and its slashes) have
been consumed. -/
def parseAfterScheme (scheme : String) (special : Bool) (rest : List Char) :
    Except String URLRecord :=
  let (auth, rest2) := rest.span (fun c => !authorityEnd special c)
  if auth.contains '[' || auth.contains ']' then .error "Invalid URL"
  else
    let hp := afterLastAt auth
    let (hostCs, portPart) := hp.span (fun c => c != ':')
    let host := String.mk (hostCs.map Char.toLower)
    if special && host = "" then .error "Invalid URL"
    else
      let portRes : Except String String :=
        match portPart with
        | [] => .ok ""
        | _ :: pcs => parsePort scheme pcs
      match portRes with
      | .error e => .error e
      | .ok port =>
        let (pathCs, rest3) := rest2.span (fun c => c != '?' && c != '#')
        let pathCs := if special then pathCs.map (fun c => if c = '\\' then '/' else c)
                      else pathCs
        let pathname := if special && pathCs = [] then "/" else String.mk pathCs
        let search :=
          match rest3 with
          | '?' :: qs =>
            let q := qs.takeWhile (fun c => c != '#')
            if q = [] then "" else "?" ++ String.mk q
          | _ => ""
        .ok { protocol := scheme ++ ":", hostname := host, port := port,
              pathname := pathname, search := search }

/-- `new URL(input)`: returns the parsed record or throws `Invalid URL`.
Leading/trailing C0 controls and spaces are trimmed and ASCII tab/newline
removed, then the scheme is split off; special schemes skip any run of
slashes and always parse an authority, other schemes parse an authority only
after `//` and otherwise keep an opaque path. -/
def parseURL (input : String) : Except String URLRecord :=
  let cs := input.toList.filter (fun c => c != '\t' && c != '\n' && c != '\r')
  let cs := cs.dropWhile (fun c => c.toNat ≤ 32)
  let cs := (cs.reverse.dropWhile (fun c => c.toNat ≤ 32)).reverse
  match splitScheme cs with
  | none => .error "Invalid URL"
  | some (scheme, rest) =>
    if isSpecialScheme scheme then
      parseAfterScheme scheme true (rest.dropWhile (fun c => c = '/' || c = '\\'))
    else
      match rest with
      | '/' :: '/' :: rest2 => parseAfterScheme scheme false rest2
      | _ =>
        let (pathCs, rest3) := rest.span (fun c => c != '?' && c != '#')
        let search :=
          match rest3 with
          | '?' :: qs =>
            let q := qs.takeWhile (fun c => c != '#')
            if q = [] then "" else "?" ++ String.mk q
          | _ => ""
        .ok { protocol := scheme ++ ":", hostname := "", port := "",
              pathname := String.mk pathCs, search := search }

/-! ### Query-string extraction (`url.parse(req.url, true).query`) -/

/-- The raw query string of a request target: after the first `?`, before the
first `#`. -/
def requestQuery (u : String) : String :=
  let cs := u.toList.takeWhile (fun c => c != '#')
  match (cs.span (fun c => c != '?')).2 with
  | [] => ""
  | _ :: q => String.mk q

/-- Split a character list on `&` separators. -/
def splitAmp : List Char → List (List Char)
  | [] => [[]]
  | c :: rest =>
    match splitAmp rest with
    | [] => [[]]
    | s :: ss => if c = '&' then [] :: s :: ss else (c :: s) :: ss

/-- Split a query part at its first `=`: key, and the value when present. -/
def splitFirstEq : List Char → List Char × Option (List Char)
  | [] => ([], none)
  | c :: rest =>
    if c = '=' then ([], some rest)
    else
      let (k, v) := splitFirstEq rest
      (c :: k, v)

/-- Parse a query string into key/value pairs: split on `&`, each non-empty
part split at its first `=` (missing `=` gives an empty value, as
`querystring.parse` does). -/
def queryPairs (qs : String) : List (String × String) :=
  (splitAmp qs.toList).filterMap fun part =>
    if part = [] then none
    else
      let (k, v) := splitFirstEq part
      some (String.mk k, String.mk (v.getD []))

/-- `url.parse(u, true).query[key]`: the first value bound to `key`. -/
def queryParam (u : String) (key : String) : Option String :=
  objGet (queryPairs (requestQuery u)) key

/-! ### The handler's fixed responses and header blocks -/

/-- A one-field JSON error body, as `JSON.stringify` produces it. -/
def jsonError1 (e : String) : String :=
  "\x7b\"error\":\"" ++ e ++ "\"\x7d"

/-- A two-field JSON error body (`error`, `message`).  The embedding assumes
the message needs no JSON string escaping, which holds for the parse message
`Invalid URL` and the transport messages considered. -/
def jsonError2 (e m : String) : String :=
  "\x7b\"error\":\"" ++ e ++ "\",\"message\":\"" ++ m ++ "\"\x7d"

/-- The header block of the `OPTIONS` preflight branch. -/
def corsPreflightHeaders : Headers :=
  [("Access-Control-Allow-Origin", "*"),
   ("Access-Control-Allow-Methods", "GET, POST, PUT, DELETE, PROPFIND, HEAD, OPTIONS"),
   ("Access-Control-Allow-Headers", "Content-Type, Authorization, Depth, User-Agent"),
   ("Access-Control-Max-Age", "86400")]

/-- The response written for `OPTIONS` requests: 200, CORS headers, no body. -/
def preflightResponse : Response :=
  { status := 200, headers := corsPreflightHeaders, body := "" }

/-- The response written when the `url` query parameter is falsy. -/
def missingTargetResponse : Response :=
  { status := 400,
    headers := [("Content-Type", "application/json")],
    body := jsonError1 "Missing target URL. Use ?url=..." }

/-- The response written in the `catch` block when `new URL` throws. -/
def invalidTargetResponse (msg : String) : Response :=
  { status := 400,
    headers := [("Content-Type", "application/json"),
                ("Access-Control-Allow-Origin", "*")],
    body := jsonError2 "Invalid target URL" msg }

/-- The response written by the `proxyReq.on error` handler. -/
def upstreamErrorResponse (msg : String) : Response :=
  { status := 502,
    headers := [("Content-Type", "application/json"),
                ("Access-Control-Allow-Origin", "*")],
    body := jsonError2 "Proxy request failed" msg }

/-- The fixed CORS block the response relay starts from. -/
def corsResponseHeaders : Headers :=
  [("Access-Control-Allow-Origin", "*"),
   ("Access-Control-Allow-Methods", "GET, POST, PUT, DELETE, PROPFIND, HEAD, OPTIONS"),
   ("Access-Control-Allow-Headers", "Content-Type, Authorization, Depth, User-Agent"),
   ("Access-Control-Expose-Headers", "*")]

/-! ### Outbound request construction and the handler -/

/-- The `options` object built for the outbound request: hostname from the
target, `target.port || (https ? 443 : 80)`, path `target.pathname +
target.search`, the inbound method, and the inbound headers spread into a
fresh object with `host` assigned to the target hostname — after which the
source deletes both the `host` and the `connection` properties. -/
def buildOptions (req : InboundRequest) (target : URLRecord) : RequestOptions :=
  { hostname := target.hostname
    port := if target.port = "" then (if target.protocol = "https:" then 443 else 80)
            else digitsToNat target.port.toList
    path := target.pathname ++ target.search
    method := req.method
    headers := objDelete (objDelete (objSet req.headers "host" target.hostname) "host")
                 "connection" }

/-- The request handler of `http.createServer`, up to the point where control
passes to the network: `OPTIONS` short-circuits, a falsy `url` parameter maps
to the 400 missing-target response, a throwing `new URL` maps to the 400
invalid-target response, and otherwise the outbound request is issued, piping
the inbound body unless the method is GET, HEAD, DELETE or PROPFIND. -/
def handle (req : InboundRequest) : Outcome :=
  if req.method = "OPTIONS" then
    .preflight preflightResponse
  else
    match queryParam req.url "url" with
    | none => .missingTarget missingTargetResponse
    | some t =>
      if t = "" then .missingTarget missingTargetResponse
      else
        match parseURL t with
        | .error msg => .invalidTarget (invalidTargetResponse msg)
        | .ok target =>
          .forward (buildOptions req target)
            (if req.method ≠ "GET" ∧ req.method ≠ "HEAD" ∧ req.method ≠ "DELETE" ∧
                req.method ≠ "PROPFIND"
             then some req.body else none)

/-- Caller-facing headers on a successful forward: start from the fixed CORS
block, then assign every upstream header over it in order. -/
def relayHeaders (upstreamHeaders : Headers) : Headers :=
  upstreamHeaders.foldl (fun acc p => objSet acc p.1 p.2) corsResponseHeaders

/-- The response relayed to the caller: upstream status verbatim, merged
headers, upstream body streamed through. -/
def relayResponse (proxyRes : UpstreamResponse) : Response :=
  { status := proxyRes.statusCode
    headers := relayHeaders proxyRes.headers
    body := proxyRes.body }

instance : DecidableEq (Except String URLRecord) := fun a b =>
  match a, b with
  | .error e1, .error e2 =>
    if h : e1 = e2 then isTrue (h ▸ rfl) else isFalse (fun hc => h (Except.error.inj hc))
  | .ok v1, .ok v2 =>
    if h : v1 = v2 then isTrue (h ▸ rfl) else isFalse (fun hc => h (Except.ok.inj hc))
  | .error _, .ok _ => isFalse (fun hc => Except.noConfusion hc)
  | .ok _, .error _ => isFalse (fun hc => Except.noConfusion hc)

/-! ### Association-list lemmas -/

theorem objGet_objSet_self (hs : Headers) (k v : String) :
    objGet (objSet hs k v) k = some v := by
  induction hs with
  | nil => simp [objSet, objGet]
  | cons p rest ih =>
    obtain ⟨k1, v1⟩ := p
    by_cases h : k1 = k
    · simp [objSet, objGet, h]
    · simp [objSet, objGet, h, ih]

theorem objGet_objSet_ne (hs : Headers) (k k' v : String) (h : k' ≠ k) :
    objGet (objSet hs k v) k' = objGet hs k' := by
  have hne : k ≠ k' := fun he => h he.symm
  induction hs with
  | nil => simp [objSet, objGet, hne]
  | cons p rest ih =>
    obtain ⟨k1, v1⟩ := p
    by_cases h1 : k1 = k
    · subst h1
      simp [objSet, objGet, hne]
    · simp [objSet, objGet, h1, ih]

theorem objDelete_objSet_self (hs : Headers) (k v : String) :
    objDelete (objSet hs k v) k = objDelete hs k := by
  induction hs with
  | nil => simp [objSet, objDelete]
  | cons p rest ih =>
    obtain ⟨k1, v1⟩ := p
    by_cases h : k1 = k
    · simp [objSet, objDelete, h]
    · simp [objSet, objDelete, h, ih]

theorem objDelete_eq_filter (hs : Headers) (k : String) :
    objDelete hs k = hs.filter (fun p => p.1 != k) := by
  induction hs with
  | nil => rfl
  | cons q rest ih =>
    obtain ⟨k1, v1⟩ := q
    by_cases h : k1 = k
    · simp [objDelete, h, ih]
    · simp [objDelete, h, ih]

theorem mem_objDelete (hs : Headers) (k : String) (p : String × String) :
    p ∈ objDelete hs k ↔ p ∈ hs ∧ p.1 ≠ k := by
  rw [objDelete_eq_filter]
  simp [List.mem_filter]

theorem objGet_eq_none_iff (hs : Headers) (k : String) :
    objGet hs k = none ↔ ∀ p ∈ hs, p.1 ≠ k := by
  induction hs with
  | nil => simp [objGet]
  | cons q rest ih =>
    obtain ⟨k1, v1⟩ := q
    by_cases h : k1 = k
    · subst h
      simp [objGet, ih]
    · simp [objGet, h, ih]

/-- The headers the source actually sends outbound: the inbound mapping with
both the `host` and the `connection` entries removed (the `host` assignment in
the options literal is immediately cancelled by `delete`). -/
theorem buildOptions_headers_eq (req : InboundRequest) (t : URLRecord) :
    (buildOptions req t).headers = objDelete (objDelete req.headers "host") "connection" := by
  simp [buildOptions, objDelete_objSet_self]

theorem objGet_foldl_objSet_not_mem (l : Headers) (k : String) :
    ∀ acc : Headers, k ∉ l.map Prod.fst →
      objGet (l.foldl (fun a p => objSet a p.1 p.2) acc) k = objGet acc k := by
  induction l with
  | nil => intro acc _; rfl
  | cons p rest ih =>
    intro acc h
    rw [List.map_cons, List.mem_cons] at h
    push_neg at h
    rw [List.foldl_cons, ih _ h.2, objGet_objSet_ne _ _ _ _ h.1]

theorem objGet_foldl_objSet_mem (l : Headers) (k v : String) :
    ∀ acc : Headers, (l.map Prod.fst).Nodup → (k, v) ∈ l →
      objGet (l.foldl (fun a p => objSet a p.1 p.2) acc) k = some v := by
  induction l with
  | nil => intro _ _ hm; cases hm
  | cons p rest ih =>
    intro acc hnd hm
    rw [List.map_cons, List.nodup_cons] at hnd
    rw [List.foldl_cons]
    rcases List.mem_cons.mp hm with heq | hmem
    · rw [← heq] at hnd ⊢
      rw [objGet_foldl_objSet_not_mem rest k _ hnd.1, objGet_objSet_self]
    · exact ih _ hnd.2 hmem

/-! ### Concrete requests and responses used as test vectors -/

/-- A GET request whose query string has no `url` parameter. -/
def missingReq : InboundRequest :=
  { method := "GET", url := "/", headers := [], body := "" }

/-- A GET request with an empty `url` value (`/?url=`). -/
def emptyUrlReq : InboundRequest :=
  { method := "GET", url := "/?url=", headers := [], body := "" }

/-- A GET request whose `url` value is well-formed but uses the `ftp` scheme. -/
def ftpReq : InboundRequest :=
  { method := "GET", url := "/?url=ftp://example.com/", headers := [], body := "" }

/-- A GET request whose `url` value has no scheme and cannot be parsed. -/
def badUrlReq : InboundRequest :=
  { method := "GET", url := "/?url=not-a-url", headers := [], body := "" }

/-- An `OPTIONS` preflight request (path and query are irrelevant). -/
def optionsReq : InboundRequest :=
  { method := "OPTIONS", url := "/x?url=http://e/",
    headers := [("origin", "http://localhost:3000")], body := "" }

/-- A POST request with a valid https target carrying an explicit port, and
inbound `host`, `connection`, `authorization` and `x-test` headers (Node
lower-cases incoming header names). -/
def postReq : InboundRequest :=
  { method := "POST", url := "/?url=https://example.com:8443/a/b?x=1",
    headers := [("host", "client.local"), ("connection", "keep-alive"),
                ("authorization", "Basic abc"), ("x-test", "abc")],
    body := "payload" }

/-- The parse of `https://example.com:8443/a/b?x=1`. -/
def target8443 : URLRecord :=
  { protocol := "https:", hostname := "example.com", port := "8443",
    pathname := "/a/b", search := "?x=1" }

/-- The outbound options the handler builds for `postReq`. -/
def opts8443 : RequestOptions :=
  { hostname := "example.com", port := 8443, path := "/a/b?x=1", method := "POST",
    headers := [("authorization", "Basic abc"), ("x-test", "abc")] }

/-- A stub upstream response: status 201, two headers, body `hello`. -/
def upstreamEx : UpstreamResponse :=
  { statusCode := 201, headers := [("x-custom", "v"), ("content-type", "text/plain")],
    body := "hello" }

/-! ### Claim C1 -/

/-- Claim C1, counterexample: the 400 response to a request missing the
`url` query parameter does not carry `Access-Control-Allow-Origin` at all —
its header object holds only `Content-Type` — so the claim that every mapped
error response includes `Access-Control-Allow-Origin: *` fails at this
input. -/
theorem missing_target_response_lacks_cors :
    handle missingReq = Outcome.missingTarget missingTargetResponse ∧
    ¬ objGet missingTargetResponse.headers "Access-Control-Allow-Origin" = some "*" := by
  exact ⟨by decide, by decide⟩

/-- Claim C1, amended: the InvalidTarget (400) and UpstreamUnavailable (502)
responses carry `Access-Control-Allow-Origin: *`, but the MissingTarget 400
response does not — its headers contain no `Access-Control-Allow-Origin`
entry. -/
theorem cors_on_mapped_errors (msg : String) :
    objGet (invalidTargetResponse msg).headers "Access-Control-Allow-Origin" = some "*" ∧
    objGet (upstreamErrorResponse msg).headers "Access-Control-Allow-Origin" = some "*" ∧
    objGet missingTargetResponse.headers "Access-Control-Allow-Origin" = none := by
  exact ⟨rfl, rfl, rfl⟩

/-! ### Claim C2 -/

/-- Claim C2, counterexample: for the concrete POST request with target
`https://example.com:8443/a/b?x=1`, the handler forwards with an outbound
header mapping that contains no `host` (or `Host`) entry at all — the
`host: target.hostname` assignment is immediately cancelled by
`delete options.headers['host']` — so the claim that the outbound mapping
contains a Host header equal to the target's host fails at this input. -/
theorem outbound_mapping_has_no_host_entry :
    handle postReq = Outcome.forward opts8443 (some "payload") ∧
    ¬ objGet opts8443.headers "host" = some "example.com" ∧
    ¬ objGet opts8443.headers "Host" = some "example.com" ∧
    objGet opts8443.headers "host" = none ∧
    objGet opts8443.headers "Host" = none := by
  exact ⟨by decide, by decide, by decide, rfl, rfl⟩

/-- Claim C2, amended: the outbound header mapping contains no Host entry at
all (the explicit `host` assignment is deleted together with any inbound
`host`), so the inbound Host value is discarded and never forwarded; the
Host header actually sent is left to the HTTP client library rather than set
in the mapping. Assumes Node's lower-casing of inbound header names. -/
theorem outbound_headers_have_no_host (req : InboundRequest) (t : URLRecord)
    (hlow : ∀ p ∈ req.headers, p.1 = lowerAscii p.1) :
    objGet (buildOptions req t).headers "host" = none ∧
    ∀ p ∈ (buildOptions req t).headers, lowerAscii p.1 ≠ "host" := by
  have he := buildOptions_headers_eq req t
  constructor
  · rw [he]
    apply (objGet_eq_none_iff _ _).mpr
    intro p hp
    have h1 := (mem_objDelete _ _ _).mp hp
    exact ((mem_objDelete _ _ _).mp h1.1).2
  · intro p hp
    rw [he] at hp
    have h1 := (mem_objDelete _ _ _).mp hp
    have h2 := (mem_objDelete _ _ _).mp h1.1
    have hl := hlow p h2.1
    intro hcontra
    exact h2.2 (hl.trans hcontra)

/-- Claim C2, witness: the amended theorem applied to the concrete POST
request and its target. -/
theorem outbound_headers_have_no_host_witness :
    (∀ p ∈ postReq.headers, p.1 = lowerAscii p.1) ∧
    objGet (buildOptions postReq target8443).headers "host" = none :=
  ⟨by decide, (outbound_headers_have_no_host postReq target8443 (by decide)).1⟩

/-! ### Claim C8 -/

/-- Claim C8, counterexample: for the concrete POST request (which carries an
inbound `host` header) the outbound mapping is not the inbound mapping with
only the `connection` entry removed — the `host` entry is removed as well —
so the claim fails at this input. -/
theorem outbound_headers_not_just_minus_connection :
    handle postReq = Outcome.forward opts8443 (some "payload") ∧
    ¬ (buildOptions postReq target8443).headers = objDelete postReq.headers "connection" := by
  exact ⟨by decide, by decide⟩

/-- Claim C8, amended: the outbound header mapping equals the inbound mapping
with both the `Host` and the `Connection` entries removed; every other
inbound entry (custom and authorization headers included) appears outbound
unchanged, case-preserved, and in order. -/
theorem outbound_headers_minus_host_connection (req : InboundRequest) (t : URLRecord) :
    (buildOptions req t).headers = objDelete (objDelete req.headers "host") "connection" ∧
    (∀ p ∈ req.headers, p.1 ≠ "host" → p.1 ≠ "connection" →
      p ∈ (buildOptions req t).headers) ∧
    (∀ p ∈ (buildOptions req t).headers, p ∈ req.headers) := by
  have he := buildOptions_headers_eq req t
  refine ⟨he, ?_, ?_⟩
  · intro p hp h1 h2
    rw [he]
    exact (mem_objDelete _ _ _).mpr ⟨(mem_objDelete _ _ _).mpr ⟨hp, h1⟩, h2⟩
  · intro p hp
    rw [he] at hp
    exact ((mem_objDelete _ _ _).mp ((mem_objDelete _ _ _).mp hp).1).1

/-- Claim C8, witness: the amended theorem applied to the concrete POST
request — its custom `x-test` header survives into the outbound mapping. -/
theorem outbound_headers_minus_host_connection_witness :
    ("x-test", "abc") ∈ (buildOptions postReq target8443).headers :=
  (outbound_headers_minus_host_connection postReq target8443).2.1
    ("x-test", "abc") (by decide) (by decide) (by decide)

/-! ### Claim C3 -/

/-- Claim C3: on a successful forward the caller-facing headers start from
the fixed CORS block and overlay every header received from the target, the
target's value winning on any key collision (so a key present upstream ends
with the upstream value, a key absent upstream keeps its CORS-block value),
and the response status equals the target's status verbatim. -/
theorem relay_overlays_cors (u : UpstreamResponse)
    (hnd : (u.headers.map Prod.fst).Nodup) :
    (relayResponse u).status = u.statusCode ∧
    (relayResponse u).headers =
      u.headers.foldl (fun a p => objSet a p.1 p.2) corsResponseHeaders ∧
    (∀ k v, (k, v) ∈ u.headers → objGet (relayResponse u).headers k = some v) ∧
    (∀ k, k ∉ u.headers.map Prod.fst →
      objGet (relayResponse u).headers k = objGet corsResponseHeaders k) := by
  refine ⟨rfl, rfl, ?_, ?_⟩
  · intro k v hm
    exact objGet_foldl_objSet_mem u.headers k v corsResponseHeaders hnd hm
  · intro k hk
    exact objGet_foldl_objSet_not_mem u.headers k corsResponseHeaders hk

/-- Claim C3, witness: the stub upstream 201 response — its `x-custom` header
survives, the untouched CORS origin header remains `*`, and the status is
relayed verbatim. -/
theorem relay_overlays_cors_witness :
    (relayResponse upstreamEx).status = 201 ∧
    objGet (relayResponse upstreamEx).headers "x-custom" = some "v" ∧
    objGet (relayResponse upstreamEx).headers "Access-Control-Allow-Origin" = some "*" := by
  have h := relay_overlays_cors upstreamEx (by decide)
  refine ⟨h.1, h.2.2.1 "x-custom" "v" (by decide), ?_⟩
  rw [h.2.2.2 "Access-Control-Allow-Origin" (by decide)]
  decide

/-! ### Claim C4 -/

/-- Claim C4: a non-OPTIONS request whose query string has no `url`
parameter gets exactly status 400 with the fixed missing-target JSON body,
and no outbound connection is attempted. -/
theorem missing_url_maps_to_400 (req : InboundRequest)
    (hm : req.method ≠ "OPTIONS") (hq : queryParam req.url "url" = none) :
    handle req = Outcome.missingTarget missingTargetResponse ∧
    (handle req).attemptsUpstream = false ∧
    missingTargetResponse.status = 400 ∧
    missingTargetResponse.body = "\x7b\"error\":\"Missing target URL. Use ?url=...\"\x7d" := by
  have h : handle req = Outcome.missingTarget missingTargetResponse := by
    unfold handle
    rw [if_neg hm, hq]
  exact ⟨h, by rw [h]; rfl, rfl, rfl⟩

/-- Claim C4, witness: the concrete request `GET /`. -/
theorem missing_url_maps_to_400_witness :
    handle missingReq = Outcome.missingTarget missingTargetResponse ∧
    missingTargetResponse.status = 400 :=
  ⟨(missing_url_maps_to_400 missingReq (by decide) (by decide)).1,
   (missing_url_maps_to_400 missingReq (by decide) (by decide)).2.2.1⟩

/-! ### Claim C5 -/

/-- Claim C5, counterexample: the well-formed `ftp`-scheme target
`ftp://example.com/` is not rejected as InvalidTarget — the handler forwards
it over the plain-HTTP transport to port 80 — so the claim that any scheme
other than http or https fails with InvalidTarget and no outbound connection
is false at this input. -/
theorem unknown_scheme_is_forwarded :
    (handle ftpReq).isInvalidTarget = false ∧
    (handle ftpReq).attemptsUpstream = true ∧
    handle ftpReq = Outcome.forward
      { hostname := "example.com", port := 80, path := "/", method := "GET",
        headers := [] } none := by
  exact ⟨by decide, by decide, by decide⟩

/-- Claim C5, amended: a present, non-empty `url` value that the URL parser
rejects (no parsable absolute-URL syntax) maps to InvalidTarget: status 400,
error field `Invalid target URL`, the parse message in `message`, the CORS
origin header present, and no outbound connection; a parsable URL with an
unknown scheme is not rejected — it is forwarded using the plain-HTTP
transport. -/
theorem unparsable_url_maps_to_invalid_target (req : InboundRequest) (s msg : String)
    (hm : req.method ≠ "OPTIONS") (hq : queryParam req.url "url" = some s)
    (hs : s ≠ "") (hp : parseURL s = .error msg) :
    handle req = Outcome.invalidTarget (invalidTargetResponse msg) ∧
    (invalidTargetResponse msg).status = 400 ∧
    (invalidTargetResponse msg).body =
      "\x7b\"error\":\"Invalid target URL\",\"message\":\"" ++ msg ++ "\"\x7d" ∧
    objGet (invalidTargetResponse msg).headers "Access-Control-Allow-Origin" = some "*" ∧
    (handle req).attemptsUpstream = false := by
  have h : handle req = Outcome.invalidTarget (invalidTargetResponse msg) := by
    unfold handle
    rw [if_neg hm, hq]
    simp only [if_neg hs, hp]
  exact ⟨h, rfl, rfl, rfl, by rw [h]; rfl⟩

/-- Claim C5, witness: the concrete request with `url=not-a-url`. -/
theorem unparsable_url_maps_to_invalid_target_witness :
    handle badUrlReq = Outcome.invalidTarget (invalidTargetResponse "Invalid URL") ∧
    (invalidTargetResponse "Invalid URL").status = 400 :=
  ⟨(unparsable_url_maps_to_invalid_target badUrlReq "not-a-url" "Invalid URL"
      (by decide) (by decide) (by decide) (by decide)).1,
   (unparsable_url_maps_to_invalid_target badUrlReq "not-a-url" "Invalid URL"
      (by decide) (by decide) (by decide) (by decide)).2.1⟩

/-! ### Claim C6 -/

/-- Claim C6: every OPTIONS request short-circuits with status 200, an empty
body, exactly the four preflight CORS headers, and no outbound connection,
regardless of path, query and headers. -/
theorem options_preflight_short_circuits (req : InboundRequest)
    (hm : req.method = "OPTIONS") :
    handle req = Outcome.preflight preflightResponse ∧
    (handle req).attemptsUpstream = false ∧
    preflightResponse.status = 200 ∧
    preflightResponse.body = "" ∧
    preflightResponse.headers =
      [("Access-Control-Allow-Origin", "*"),
       ("Access-Control-Allow-Methods", "GET, POST, PUT, DELETE, PROPFIND, HEAD, OPTIONS"),
       ("Access-Control-Allow-Headers", "Content-Type, Authorization, Depth, User-Agent"),
       ("Access-Control-Max-Age", "86400")] := by
  have h : handle req = Outcome.preflight preflightResponse := by
    unfold handle
    rw [if_pos hm]
  exact ⟨h, by rw [h]; rfl, rfl, rfl, rfl⟩

/-- Claim C6, witness: a concrete OPTIONS request with a non-trivial path and
query. -/
theorem options_preflight_short_circuits_witness :
    handle optionsReq = Outcome.preflight preflightResponse ∧
    preflightResponse.status = 200 :=
  ⟨(options_preflight_short_circuits optionsReq (by decide)).1,
   (options_preflight_short_circuits optionsReq (by decide)).2.2.1⟩

/-! ### Claim C7 -/

/-- Claim C7: whenever the handler forwards, the body piped upstream is
`none` (write side closed immediately) exactly for methods GET, HEAD, DELETE
and PROPFIND, and for every other method it is the inbound body, byte for
byte. -/
theorem forward_body_policy (req : InboundRequest) (opts : RequestOptions)
    (b : Option String) (h : handle req = Outcome.forward opts b) :
    ((req.method = "GET" ∨ req.method = "HEAD" ∨ req.method = "DELETE" ∨
      req.method = "PROPFIND") → b = none) ∧
    (¬ (req.method = "GET" ∨ req.method = "HEAD" ∨ req.method = "DELETE" ∨
      req.method = "PROPFIND") → b = some req.body) := by
  unfold handle at h
  split at h
  · simp at h
  · split at h
    · simp at h
    · split at h
      · simp at h
      · split at h
        · simp at h
        · rw [Outcome.forward.injEq] at h
          obtain ⟨-, hb⟩ := h
          constructor
          · intro hm
            rw [← hb, if_neg]
            rcases hm with h1 | h1 | h1 | h1 <;> simp [h1]
          · intro hm
            push_neg at hm
            rw [← hb, if_pos ⟨hm.1, hm.2.1, hm.2.2.1, hm.2.2.2⟩]

/-- Claim C7, witness: the concrete POST request — its body `payload` is
piped upstream unchanged. -/
theorem forward_body_policy_witness :
    some "payload" = some postReq.body :=
  (forward_body_policy postReq opts8443 (some "payload") (by decide)).2 (by decide)

/-! ### Claim C9 -/

/-- Claim C9: for every string the URL parser accepts, the outbound
connection uses the URL's explicit port when one is given and otherwise 443
for `https:` and 80 for `http:`, and the outbound path is the target's path
concatenated byte for byte with its captured query string. -/
theorem outbound_port_and_path (req : InboundRequest) (s : String) (target : URLRecord)
    (hm : req.method ≠ "OPTIONS") (hq : queryParam req.url "url" = some s)
    (hs : s ≠ "") (hp : parseURL s = .ok target) :
    handle req = Outcome.forward (buildOptions req target)
      (if req.method ≠ "GET" ∧ req.method ≠ "HEAD" ∧ req.method ≠ "DELETE" ∧
          req.method ≠ "PROPFIND" then some req.body else none) ∧
    (target.port ≠ "" → (buildOptions req target).port = digitsToNat target.port.toList) ∧
    (target.port = "" → target.protocol = "https:" → (buildOptions req target).port = 443) ∧
    (target.port = "" → target.protocol = "http:" → (buildOptions req target).port = 80) ∧
    (buildOptions req target).path = target.pathname ++ target.search := by
  refine ⟨?_, ?_, ?_, ?_, rfl⟩
  · unfold handle
    rw [if_neg hm, hq]
    simp only [if_neg hs, hp]
  · intro hne
    simp [buildOptions, hne]
  · intro he hh
    simp [buildOptions, he, hh]
  · intro he hh
    simp [buildOptions, he, hh]

/-- Claim C9, witness: the concrete POST request with explicit port 8443 and
path `/a/b?x=1`. -/
theorem outbound_port_and_path_witness :
    (buildOptions postReq target8443).port = 8443 ∧
    (buildOptions postReq target8443).path = "/a/b?x=1" := by
  have h := outbound_port_and_path postReq "https://example.com:8443/a/b?x=1" target8443
    (by decide) (by decide) (by decide) (by decide)
  exact ⟨by rw [h.2.1 (by decide)]; decide, by rw [h.2.2.2.2]; decide⟩

/-! ### Claim C10 -/

/-- Claim C10: a non-OPTIONS request whose `url` parameter is present but
empty is classified as MissingTarget (the source tests the extracted value
by truthiness), not InvalidTarget, and no outbound connection is
attempted. -/
theorem empty_url_param_is_missing_target (req : InboundRequest)
    (hm : req.method ≠ "OPTIONS") (hq : queryParam req.url "url" = some "") :
    handle req = Outcome.missingTarget missingTargetResponse ∧
    (handle req).isInvalidTarget = false ∧
    (handle req).attemptsUpstream = false ∧
    missingTargetResponse.status = 400 ∧
    missingTargetResponse.body = "\x7b\"error\":\"Missing target URL. Use ?url=...\"\x7d" := by
  have h : handle req = Outcome.missingTarget missingTargetResponse := by
    unfold handle
    rw [if_neg hm, hq]
    rfl
  exact ⟨h, by rw [h]; rfl, by rw [h]; rfl, rfl, rfl⟩

/-- Claim C10, witness: the concrete request line `/?url=` — the parameter
is present with an empty value and maps to the missing-target response. -/
theorem empty_url_param_is_missing_target_witness :
    queryParam emptyUrlReq.url "url" = some "" ∧
    handle emptyUrlReq = Outcome.missingTarget missingTargetResponse :=
  ⟨by decide, (empty_url_param_is_missing_target emptyUrlReq (by decide) (by decide)).1⟩

end Proxy
